import Mathlib

/-!
Verification of the SDMX-REST URL-building layer of `sdmx/rest/common.py`:
the parameter-handling hierarchy (`PathParameter`, `QueryParameter`,
`AgencyParam`, `PositiveIntParam`), the `Resource` / `QueryType`
classification, and the `URL` builder with its per-query-type handlers.

Modelling conventions:
- Python dictionaries are insertion-ordered association lists
  (`Dict := List (String × Val)`); `dictLookup`, `dictRemove`, `dictSet`,
  `dictUpdate`, `dictSetdefault` mirror `d[k]` / `d.pop(k)` / `d[k] = v` /
  `d.update(...)` / `d.setdefault(k, v)`.
- Python runtime values occurring in this layer are modelled by `Val`
  (strings, ints, bools, `None`).
- Raised exceptions are modelled by `Except Err`; `Err` distinguishes
  `AssertionError`, `ValueError` (with message), `KeyError`, `TypeError`
  and `AttributeError` as raised by the source.
- The abstract `handle_structure` method and the subclass-supplied
  `_all_parameters` class variable are not defined in the file under
  verification; they are taken as explicit arguments of the builder.
-/

/-- Python runtime values that can appear as parameter values in this layer. -/
inductive Val where
  | vStr : String → Val
  | vInt : Int → Val
  | vBool : Bool → Val
  | vNone : Val
deriving DecidableEq

/-- Python exceptions raised by the URL-building layer. -/
inductive Err where
  | assertionError : Err
  | valueError : String → Err
  | keyError : String → Err
  | typeError : Err
  | attributeError : String → Err
deriving DecidableEq

/-- Python str() on the values modelled by `Val`. -/
def pyStr : Val → String
  | .vStr s => s
  | .vInt n => toString n
  | .vBool b => if b then "True" else "False"
  | .vNone => "None"

/-- Python `v <= 0` on the values modelled by `Val`: ints compare normally,
bools compare as 0/1, strings and None raise TypeError. -/
def pyLeZero : Val → Except Err Bool
  | .vInt n => .ok (decide (n ≤ 0))
  | .vBool b => .ok (!b)
  | .vStr _ => .error .typeError
  | .vNone => .error .typeError

abbrev Entry := String × Val

/-- Insertion-ordered association list modelling a Python dict. -/
abbrev Dict := List Entry

/-- Python `d.get(k)` / `d[k]` lookup. -/
def dictLookup (m : Dict) (k : String) : Option Val :=
  (m.find? (fun p => p.1 == k)).map (fun p => p.2)

/-- Python `k in d`. -/
def dictContains (m : Dict) (k : String) : Bool :=
  (dictLookup m k).isSome

/-- Removal of key `k`, the mutation effect of `d.pop(k)`. -/
def dictRemove (m : Dict) (k : String) : Dict :=
  m.filter (fun p => p.1 != k)

/-- Python `d[k] = v`: replace in place if the key exists, else append. -/
def dictSet (m : Dict) (k : String) (v : Val) : Dict :=
  if dictContains m k then m.map (fun p => if p.1 == k then (k, v) else p)
  else m ++ [(k, v)]

/-- Python `d.update(entries)`. -/
def dictUpdate (m : Dict) (entries : Dict) : Dict :=
  entries.foldl (fun acc p => dictSet acc p.1 p.2) m

/-- Python `d.setdefault(k, v)`. -/
def dictSetdefault (m : Dict) (k : String) (v : Val) : Dict :=
  if dictContains m k then m else m ++ [(k, v)]

/-- ASCII lowercase test, the character class `[a-z]` of the regex in
`QueryParameter.__post_init__`. -/
def isAsciiLowerChar (c : Char) : Bool :=
  97 ≤ c.toNat && c.toNat ≤ 122

/-- Character-level embedding of
`re.sub(r"_([a-z])", lambda x: x.group(1).upper(), name)`:
scanning left to right, each underscore followed by an ASCII lowercase letter
is replaced by the uppercased letter. -/
def camelChars : List Char → List Char
  | [] => []
  | [c] => [c]
  | c1 :: c2 :: rest =>
    if c1 == '_' && isAsciiLowerChar c2 then c2.toUpper :: camelChars rest
    else c1 :: camelChars (c2 :: rest)

/-- The lowerCamelCase alias computed once in `QueryParameter.__post_init__`. -/
def camelName (name : String) : String :=
  ⟨camelChars name.data⟩

/-- True when the string has no underscore immediately followed by an ASCII
lowercase letter, i.e. when the regex of `__post_init__` has no match. -/
def noUnderscoreLower : List Char → Bool
  | [] => true
  | [_] => true
  | c1 :: c2 :: rest => !(c1 == '_' && isAsciiLowerChar c2) && noUnderscoreLower (c2 :: rest)

/-- The concrete Parameter subclass, standing in for the Python class of the
instance (`PathParameter`, `AgencyParam`, `QueryParameter`, `PositiveIntParam`). -/
inductive PKind where
  | path
  | agency
  | query
  | posInt
deriving DecidableEq

/-- The `Parameter` dataclass: `name`, allowable `values` (empty means
unconstrained) and optional `default`, plus the concrete subclass tag. -/
structure ParamSpec where
  kind : PKind
  name : String
  values : List Val := []
  default : Val := Val.vNone
deriving DecidableEq

/-- Web service `Source`: base URL plus optional agency `id` attribute
(`getattr(source, "id", None)`). -/
structure Source where
  url : String
  id : Option String := none
deriving DecidableEq

/-- PathParameter.handle: pop `name` (falling back to `default`), assert the
value is allowed, return the singleton fragment together with the mutated
remaining-parameters dict. -/
def pathParamHandle (p : ParamSpec) (params : Dict) : Except Err (Dict × Dict) :=
  if decide ((dictLookup params p.name).getD p.default ∈ p.values) || p.values.isEmpty then
    .ok ([(p.name, (dictLookup params p.name).getD p.default)], dictRemove params p.name)
  else .error .assertionError

/-- QueryParameter.handle: find which of `name` / `camelName` is supplied,
raise ValueError when both distinct aliases are present, otherwise pop the
present one, assert it is allowed and return `{camelName: value}`; empty
fragment when neither alias is present. -/
def queryParamHandle (p : ParamSpec) (params : Dict) : Except Err (Dict × Dict) :=
  if dictContains params p.name || dictContains params (camelName p.name) then
    if (p.name != camelName p.name) && dictContains params p.name &&
        dictContains params (camelName p.name) then
      .error (.valueError ("Cannot give both " ++ p.name ++ " and " ++ camelName p.name))
    else
      match dictLookup params (if dictContains params p.name then p.name else camelName p.name) with
      | some value =>
        if decide (value ∈ p.values) || p.values.isEmpty then
          .ok ([(camelName p.name, value)],
            dictRemove params (if dictContains params p.name then p.name else camelName p.name))
        else .error .assertionError
      | none =>
        -- Unreachable: the popped key is present in `params`.
        .error (.keyError (if dictContains params p.name then p.name else camelName p.name))
  else .ok ([], params)

/-- AgencyParam.handle: `parameters.setdefault(self.name, getattr(source, "id",
None))`, then delegate to PathParameter.handle. -/
def agencyParamHandle (p : ParamSpec) (params : Dict) (source : Source) :
    Except Err (Dict × Dict) :=
  pathParamHandle p
    (dictSetdefault params p.name (match source.id with | some s => .vStr s | none => .vNone))

/-- PositiveIntParam.handle: delegate to QueryParameter.handle; on an empty
fragment return it unchanged; otherwise compare the value with 0 (TypeError
for non-numeric values), raise ValueError when not positive, and on success
overwrite the entry with `str(k)` — the stringified KEY, as the source does. -/
def positiveIntParamHandle (p : ParamSpec) (params : Dict) : Except Err (Dict × Dict) :=
  match queryParamHandle p params with
  | .error e => .error e
  | .ok ([], params') => .ok ([], params')
  | .ok ((k, v) :: rest, params') =>
    match pyLeZero v with
    | .error e => .error e
    | .ok true => .error (.valueError (k ++ " must be positive integer; got " ++ pyStr v))
    | .ok false => .ok ((k, Val.vStr k) :: rest, params')

/-- Polymorphic `Parameter.handle` dispatch on the concrete subclass. -/
def ParamSpec.handle (p : ParamSpec) (params : Dict) (source : Source) :
    Except Err (Dict × Dict) :=
  match p.kind with
  | .path => pathParamHandle p params
  | .agency => agencyParamHandle p params source
  | .query => queryParamHandle p params
  | .posInt => positiveIntParamHandle p params

/-- The registered `QueryParameter("start_period")`. -/
def startPeriodParam : ParamSpec := ⟨.query, "start_period", [], .vNone⟩

/-- The registered `PositiveIntParam("first_n_observations")`. -/
def firstNObservationsParam : ParamSpec := ⟨.posInt, "first_n_observations", [], .vNone⟩

/-- The registered `QueryParameter("mode", {"available", "exact"})`. -/
def modeParam : ParamSpec := ⟨.query, "mode", [.vStr "available", .vStr "exact"], .vNone⟩

/-- The `PARAM` registry: parameter name to Parameter instance. -/
def PARAM : List (String × ParamSpec) :=
  [("agency_id", ⟨.agency, "agency_id", [], .vNone⟩),
   ("resource_id", ⟨.path, "resource_id", [], .vStr "all"⟩),
   ("start_period", startPeriodParam),
   ("end_period", ⟨.query, "end_period", [], .vNone⟩),
   ("updated_after", ⟨.query, "updated_after", [], .vNone⟩),
   ("first_n_observations", firstNObservationsParam),
   ("last_n_observations", ⟨.posInt, "last_n_observations", [], .vNone⟩),
   ("dimension_at_observation", ⟨.query, "dimension_at_observation", [], .vNone⟩),
   ("include_history", ⟨.query, "include_history", [.vBool true, .vBool false], .vNone⟩),
   ("explicit_measure", ⟨.query, "explicit_measure", [.vBool true, .vBool false], .vNone⟩),
   ("mode", modeParam)]

/-- Registry lookup `PARAM[name]`; `none` models the KeyError. -/
def PARAM.find (n : String) : Option ParamSpec :=
  (PARAM.find? (fun p => p.1 == n)).map (fun p => p.2)

/-- High-level types of SDMX REST queries. -/
inductive QueryType where
  | availability
  | data
  | metadata
  | schema
  | «structure»
  | registration
deriving DecidableEq, Fintype

/-- Python Enum member `.name` for `QueryType`; each member is assigned a
string value spelled exactly like its name. -/
def QueryType.name : QueryType → String
  | .availability => "availability"
  | .data => "data"
  | .metadata => "metadata"
  | .schema => "schema"
  | .«structure» => "structure"
  | .registration => "registration"

/-- All members of `QueryType`, in declaration order. -/
def queryTypeMembers : List QueryType :=
  [.availability, .data, .metadata, .schema, .«structure», .registration]

/-- Python `QueryType[s]` lookup by member name; `none` models the KeyError. -/
def queryTypeOfName (s : String) : Option QueryType :=
  queryTypeMembers.find? (fun q => q.name == s)

/-- Enumeration of SDMX-REST API resources. -/
inductive Resource where
  | actualconstraint
  | agencyscheme
  | allowedconstraint
  | attachementconstraint
  | availableconstraint
  | categorisation
  | categoryscheme
  | codelist
  | conceptscheme
  | contentconstraint
  | customtypescheme
  | data
  | dataconsumerscheme
  | dataflow
  | dataproviderscheme
  | datastructure
  | hierarchicalcodelist
  | metadata
  | metadataflow
  | metadatastructure
  | namepersonalisationscheme
  | organisationscheme
  | organisationunitscheme
  | process
  | provisionagreement
  | reportingtaxonomy
  | rulesetscheme
  | schema
  | «structure»
  | structureset
  | transformationscheme
  | userdefinedoperatorscheme
  | vtlmappingscheme
deriving DecidableEq, Fintype

/-- The string value assigned to each `Resource` member in the source. -/
def Resource.value : Resource → String
  | .actualconstraint => "actualconstraint"
  | .agencyscheme => "agencyscheme"
  | .allowedconstraint => "allowedconstraint"
  | .attachementconstraint => "attachementconstraint"
  | .availableconstraint => "availableconstraint"
  | .categorisation => "categorisation"
  | .categoryscheme => "categoryscheme"
  | .codelist => "codelist"
  | .conceptscheme => "conceptscheme"
  | .contentconstraint => "contentconstraint"
  | .customtypescheme => "customtypescheme"
  | .data => "data"
  | .dataconsumerscheme => "dataconsumerscheme"
  | .dataflow => "dataflow"
  | .dataproviderscheme => "dataproviderscheme"
  | .datastructure => "datastructure"
  | .hierarchicalcodelist => "hierarchicalcodelist"
  | .metadata => "metadata"
  | .metadataflow => "metadataflow"
  | .metadatastructure => "metadatastructure"
  | .namepersonalisationscheme => "namepersonalisationscheme"
  | .organisationscheme => "organisationscheme"
  | .organisationunitscheme => "organisationunitscheme"
  | .process => "process"
  | .provisionagreement => "provisionagreement"
  | .reportingtaxonomy => "reportingtaxonomy"
  | .rulesetscheme => "rulesetscheme"
  | .schema => "schema"
  | .«structure» => "structure"
  | .structureset => "structureset"
  | .transformationscheme => "transformationscheme"
  | .userdefinedoperatorscheme => "userdefinedoperatorscheme"
  | .vtlmappingscheme => "vtlmappingscheme"

/-- Python Enum member `.name` for `Resource`; in the source every member's
name is spelled exactly like its assigned string value. -/
def Resource.name (r : Resource) : String :=
  r.value

/-- All members of `Resource`, in declaration order. -/
def resourceMembers : List Resource :=
  [.actualconstraint, .agencyscheme, .allowedconstraint, .attachementconstraint,
   .availableconstraint, .categorisation, .categoryscheme, .codelist,
   .conceptscheme, .contentconstraint, .customtypescheme, .data,
   .dataconsumerscheme, .dataflow, .dataproviderscheme, .datastructure,
   .hierarchicalcodelist, .metadata, .metadataflow, .metadatastructure,
   .namepersonalisationscheme, .organisationscheme, .organisationunitscheme, .process,
   .provisionagreement, .reportingtaxonomy, .rulesetscheme, .schema,
   .«structure», .structureset, .transformationscheme, .userdefinedoperatorscheme,
   .vtlmappingscheme]

/-- Mapping from Resource value to class name (`CLASS_NAME`). -/
def CLASS_NAME : List (String × String) :=
  [("dataflow", "DataflowDefinition"), ("datastructure", "DataStructureDefinition")]

/-- Inverse of `CLASS_NAME` (`VALUE = {v: k for k, v in CLASS_NAME.items()}`). -/
def VALUE : List (String × String) :=
  CLASS_NAME.map (fun p => (p.2, p.1))

/-- Lookup in a string-to-string table, Python `t.get(k)`. -/
def lookupStr (t : List (String × String)) (k : String) : Option String :=
  (t.find? (fun p => p.1 == k)).map (fun p => p.2)

/-- Resource.class_name: `CLASS_NAME.get(value.value, value.value)`. -/
def Resource.class_name (r : Resource) : String :=
  (lookupStr CLASS_NAME r.value).getD r.value

/-- Python `Resource[s]` lookup by member name; `none` models the KeyError. -/
def resourceOfName (s : String) : Option Resource :=
  resourceMembers.find? (fun r => r.name == s)

/-- Resource.from_obj: `cls[VALUE.get(value, value)]`, taking the concrete
class name of `obj` as input; `none` models the KeyError. -/
def from_obj (className : String) : Option Resource :=
  resourceOfName ((lookupStr VALUE className).getD className)

/-- URL.identify_query_type: `QueryType[self.resource_type.name]`, falling
back to `QueryType["structure"]` on KeyError. -/
def identify_query_type (r : Resource) : QueryType :=
  (queryTypeOfName r.name).getD QueryType.«structure»

/-- Mutable build state of one URL: path pieces, query pieces, and the
remaining keyword parameters. -/
structure URLState where
  path : Dict
  query : Dict
  params : Dict
deriving DecidableEq

/-- URL.handle_data (also bound as handle_metadata): seed the path with the
resource-type name mapped to None, relocate the required `resource_id` into
the path under `flow_ref` (KeyError when absent), and relocate `key` when
present. -/
def handle_data (resource_type : Resource) (st : URLState) : Except Err URLState :=
  match dictLookup st.params "resource_id" with
  | none => .error (.keyError "resource_id")
  | some v =>
    match dictLookup (dictRemove st.params "resource_id") "key" with
    | some kv =>
      .ok ⟨dictSet (dictSet (dictUpdate st.path [(resource_type.name, Val.vNone)]) "flow_ref" v)
            "key" kv,
          st.query, dictRemove (dictRemove st.params "resource_id") "key"⟩
    | none =>
      .ok ⟨dictSet (dictUpdate st.path [(resource_type.name, Val.vNone)]) "flow_ref" v,
          st.query, dictRemove st.params "resource_id"⟩

/-- URL.handle_path_params: look each name up in `_all_parameters` (KeyError
if absent), run its handle, and merge the fragment into the path in order. -/
def handle_path_params (allParams : String → Option ParamSpec) (source : Source)
    (names : List String) (st : URLState) : Except Err URLState :=
  match names with
  | [] => .ok st
  | n :: rest =>
    match allParams n with
    | none => .error (.keyError n)
    | some p =>
      match p.handle st.params source with
      | .error e => .error e
      | .ok (frag, params') =>
        handle_path_params allParams source rest ⟨dictUpdate st.path frag, st.query, params'⟩

/-- URL.handle_schema: seed the path with the resource-type name, then consume
the path parameters `context/agency_id/resource_id/version` in order. -/
def handle_schema (allParams : String → Option ParamSpec) (source : Source)
    (resource_type : Resource) (st : URLState) : Except Err URLState :=
  handle_path_params allParams source ("context/agency_id/resource_id/version".splitOn "/")
    ⟨dictUpdate st.path [(resource_type.name, Val.vNone)], st.query, st.params⟩

/-- The `getattr(self, f"handle_{self.query_type.name}")()` dispatch.
`handle_structure` is abstract in the source and is passed in; the source
class defines no handler for availability or registration, so reaching those
would raise AttributeError (they are unreachable from identify_query_type). -/
def dispatch_handler (handle_structure : URLState → Except Err URLState)
    (allParams : String → Option ParamSpec) (source : Source)
    (resource_type : Resource) (st : URLState) : Except Err URLState :=
  match identify_query_type resource_type with
  | .data => handle_data resource_type st
  | .metadata => handle_data resource_type st
  | .schema => handle_schema allParams source resource_type st
  | .«structure» => handle_structure st
  | .availability => .error (.attributeError "handle_availability")
  | .registration => .error (.attributeError "handle_registration")

/-- URL.__init__: merge the keyword arguments with the nested `params`
mapping (ValueError on overlapping keys), classify the query type and
dispatch to its handler, and fail with ValueError when any parameters
remain unconsumed. -/
def url_init (handle_structure : URLState → Except Err URLState)
    (allParams : String → Option ParamSpec) (source : Source)
    (resource_type : Resource) (kwargs params_dict : Dict) : Except Err URLState :=
  if kwargs.any (fun kv => dictContains params_dict kv.1) then
    .error (.valueError "Duplicate values for query parameters")
  else
    match dispatch_handler handle_structure allParams source resource_type
        ⟨[], [], dictUpdate kwargs params_dict⟩ with
    | .error e => .error e
    | .ok st =>
      if st.params.isEmpty then .ok st
      else .error (.valueError "Unexpected/unhandled parameters")

/-- Splits a leading `scheme://` prefix from the character list of a URL. -/
def splitScheme : List Char → Option (List Char × List Char)
  | [] => none
  | ':' :: '/' :: '/' :: rest => some ([], rest)
  | c :: rest => (splitScheme rest).map (fun p => (c :: p.1, p.2))

/-- Splits the network location from the path at the first slash. -/
def splitNetloc : List Char → List Char × List Char
  | [] => ([], [])
  | '/' :: rest => ([], '/' :: rest)
  | c :: rest => ((splitNetloc rest).1.cons c, (splitNetloc rest).2)

/-- urllib.parse.urlsplit restricted to the first three components, modelled
for base URLs of the form `scheme://netloc/path` without query or fragment. -/
def urlsplit3 (url : String) : String × String × String :=
  match splitScheme url.data with
  | none => ("", "", url)
  | some (scheme, rest) => (⟨scheme⟩, ⟨(splitNetloc rest).1⟩, ⟨(splitNetloc rest).2⟩)

/-- urllib.parse.urlunsplit for a non-empty scheme and netloc and no
fragment: the query string is appended after `?` only when non-empty. -/
def urlunsplitParts (scheme netloc path query : String) : String :=
  scheme ++ "://" ++ netloc ++ path ++ (if query = "" then "" else "?" ++ query)

/-- One path segment: `(value or name)` — Python truthiness selects the
literal parameter name for None, empty strings, 0 and False; a truthy
non-string value would make `"/".join` raise TypeError. -/
def segVal (name : String) : Val → Except Err String
  | .vNone => .ok name
  | .vStr s => .ok (if s = "" then name else s)
  | .vInt n => if n = 0 then .ok name else .error .typeError
  | .vBool b => if b then .error .typeError else .ok name

/-- URL.join: keep scheme, netloc and path of the source's base URL, append
the path pieces in insertion order, and append the query pieces as
`k=v` pairs joined by `&`. -/
def URLState.join (source : Source) (st : URLState) : Except Err String :=
  match st.path.mapM (fun p => segVal p.1 p.2) with
  | .error e => .error e
  | .ok segs =>
    .ok (urlunsplitParts (urlsplit3 source.url).1 (urlsplit3 source.url).2.1
      (String.intercalate "/" ((urlsplit3 source.url).2.2 :: segs))
      (String.intercalate "&" (st.query.map (fun p => p.1 ++ "=" ++ pyStr p.2))))

/-- Example web service source used in the end-to-end checks. -/
def exampleSource : Source :=
  ⟨"https://example.org/sdmx", none⟩

/-! ### Dictionary lemmas -/

theorem dictLookup_cons (a : Entry) (t : Dict) (k : String) :
    dictLookup (a :: t) k = if a.1 = k then some a.2 else dictLookup t k := by
  by_cases h : a.1 = k
  · simp [dictLookup, List.find?_cons, h]
  · simp [dictLookup, List.find?_cons, h]

theorem dictLookup_remove_ne (m : Dict) (r k : String) (h : k ≠ r) :
    dictLookup (dictRemove m r) k = dictLookup m k := by
  induction m with
  | nil => rfl
  | cons a t ih =>
    by_cases ha : a.1 = r
    · have hstep : dictRemove (a :: t) r = dictRemove t r := by
        simp [dictRemove, List.filter_cons, ha]
      rw [hstep, ih, dictLookup_cons]
      have : ¬ a.1 = k := by rw [ha]; exact fun hk => h hk.symm
      rw [if_neg this]
    · have hstep : dictRemove (a :: t) r = a :: dictRemove t r := by
        simp [dictRemove, List.filter_cons, ha]
      rw [hstep, dictLookup_cons, dictLookup_cons, ih]

theorem dictLookup_append_singleton_ne (m : Dict) (n : String) (v : Val) (k : String)
    (h : k ≠ n) :
    dictLookup (m ++ [(n, v)]) k = dictLookup m k := by
  induction m with
  | nil =>
    have : ¬ (n, v).1 = k := fun hk => h hk.symm
    simp only [List.nil_append]
    rw [dictLookup_cons, if_neg this]
  | cons a t ih =>
    rw [List.cons_append, dictLookup_cons, dictLookup_cons]
    by_cases hk : a.1 = k
    · rw [if_pos hk, if_pos hk]
    · rw [if_neg hk, if_neg hk]
      exact ih

theorem dictLookup_setdefault_ne (m : Dict) (n : String) (v : Val) (k : String)
    (h : k ≠ n) :
    dictLookup (dictSetdefault m n v) k = dictLookup m k := by
  unfold dictSetdefault
  by_cases hc : dictContains m n
  · rw [if_pos hc]
  · rw [if_neg hc]
    exact dictLookup_append_singleton_ne m n v k h

/-! ### C1: query-type derivation -/

/-- C1: for every Resource member, identify_query_type returns the QueryType
member of the same name when one exists, and QueryType.structure otherwise;
the derivation is a total function over all Resource members. -/
theorem identify_query_type_matches_name (r : Resource) :
    (∀ q : QueryType, QueryType.name q = Resource.name r → identify_query_type r = q)
    ∧ ((∀ q : QueryType, QueryType.name q ≠ Resource.name r) →
        identify_query_type r = QueryType.«structure») := by
  revert r
  decide

/-- Witness for C1 at concrete members: `data` maps to the QueryType of the
same name, `codelist` (no QueryType of that name) maps to structure. -/
theorem identify_query_type_matches_name_instance :
    identify_query_type Resource.data = QueryType.data
    ∧ identify_query_type Resource.codelist = QueryType.«structure» :=
  ⟨(identify_query_type_matches_name Resource.data).1 QueryType.data (by decide),
   (identify_query_type_matches_name Resource.codelist).2 (by decide)⟩

/-! ### C7: class_name totality -/

/-- C7: Resource.class_name is total over Resource members, always yields a
non-empty string, maps the irregular members dataflow and datastructure per
CLASS_NAME, and maps every other member to its own lowercase tag. -/
theorem class_name_total (r : Resource) :
    Resource.class_name r ≠ ""
    ∧ Resource.class_name Resource.dataflow = "DataflowDefinition"
    ∧ Resource.class_name Resource.datastructure = "DataStructureDefinition"
    ∧ (r ≠ Resource.dataflow → r ≠ Resource.datastructure →
        Resource.class_name r = Resource.value r) := by
  revert r
  decide

/-- Witness for C7 at a concrete regular member. -/
theorem class_name_total_instance :
    Resource.class_name Resource.codelist = Resource.value Resource.codelist :=
  (class_name_total Resource.codelist).2.2.2 (by decide) (by decide)

/-! ### C8: from_obj inverts class_name -/

theorem resourceMembers_complete (r : Resource) : r ∈ resourceMembers := by
  cases r <;> decide

theorem lookupStr_VALUE_of_ne (s : String) (h1 : s ≠ "DataflowDefinition")
    (h2 : s ≠ "DataStructureDefinition") : lookupStr VALUE s = none := by
  have e1 : (("DataflowDefinition" : String) == s) = false := by
    simp only [beq_eq_false_iff_ne]
    exact fun h => h1 h.symm
  have e2 : (("DataStructureDefinition" : String) == s) = false := by
    simp only [beq_eq_false_iff_ne]
    exact fun h => h2 h.symm
  show lookupStr [("DataflowDefinition", "dataflow"), ("DataStructureDefinition", "datastructure")] s = none
  unfold lookupStr
  rw [List.find?_cons, List.find?_cons]
  simp only [e1, e2]
  rfl

/-- C8: from_obj inverts class_name on every Resource member, and fails (with
a KeyError, modelled by `none`) exactly when the supplied type name is neither
a key of the inverse table VALUE nor the name of a Resource member. -/
theorem from_obj_inverts_class_name :
    (∀ r : Resource, from_obj (Resource.class_name r) = some r)
    ∧ (∀ s : String, from_obj s = none ↔
        (lookupStr VALUE s = none ∧ ∀ r : Resource, Resource.name r ≠ s)) := by
  constructor
  · decide
  · intro s
    by_cases h1 : s = "DataflowDefinition"
    · subst h1
      constructor
      · intro h
        exact absurd h (by decide)
      · rintro ⟨h, -⟩
        exact absurd h (by decide)
    · by_cases h2 : s = "DataStructureDefinition"
      · subst h2
        constructor
        · intro h
          exact absurd h (by decide)
        · rintro ⟨h, -⟩
          exact absurd h (by decide)
      · have hv : lookupStr VALUE s = none := lookupStr_VALUE_of_ne s h1 h2
        have hobj : from_obj s = resourceOfName s := by
          unfold from_obj
          rw [hv]
          rfl
        rw [hobj]
        unfold resourceOfName
        constructor
        · intro h
          refine ⟨hv, fun r hr => ?_⟩
          have := List.find?_eq_none.mp h r (resourceMembers_complete r)
          simp only [beq_eq_false_iff_ne, Bool.not_eq_true] at this
          exact this hr
        · rintro ⟨-, hall⟩
          refine List.find?_eq_none.mpr fun r _ => ?_
          simp only [beq_eq_false_iff_ne, Bool.not_eq_true]
          exact hall r

deriving instance DecidableEq for Except

/-! ### C2: end-to-end data query -/

/-- C2 counterexample: for resource `dataflow` the derived query type is
structure, not data, so the data/metadata handler is not the active handler;
and even run directly, the data handler seeds the path with the literal
resource-type tag "dataflow", so joining yields
https://example.org/sdmx/dataflow/EXR, not https://example.org/sdmx/data/EXR. -/
theorem data_query_for_dataflow_counterexample :
    identify_query_type Resource.dataflow ≠ QueryType.data
    ∧ identify_query_type Resource.dataflow = QueryType.«structure»
    ∧ handle_data Resource.dataflow ⟨[], [], [("resource_id", Val.vStr "EXR")]⟩ =
        .ok ⟨[("dataflow", Val.vNone), ("flow_ref", Val.vStr "EXR")], [], []⟩
    ∧ URLState.join exampleSource
        ⟨[("dataflow", Val.vNone), ("flow_ref", Val.vStr "EXR")], [], []⟩ =
        .ok "https://example.org/sdmx/dataflow/EXR"
    ∧ ("https://example.org/sdmx/dataflow/EXR" : String) ≠ "https://example.org/sdmx/data/EXR" :=
  ⟨by decide, by decide, by decide, by decide, by decide⟩

/-- C2 amended: building a data query for resource `data` with
resource_id="EXR" against a source with base URL https://example.org/sdmx
succeeds for any structure handler (which is never invoked), the shared
data/metadata handler seeds the path with the resource-type name mapped to
None and relocates resource_id under flow_ref, and join returns exactly
https://example.org/sdmx/data/EXR. -/
theorem data_query_end_to_end (hs : URLState → Except Err URLState) :
    url_init hs PARAM.find exampleSource Resource.data [("resource_id", Val.vStr "EXR")] [] =
      .ok ⟨[("data", Val.vNone), ("flow_ref", Val.vStr "EXR")], [], []⟩
    ∧ URLState.join exampleSource ⟨[("data", Val.vNone), ("flow_ref", Val.vStr "EXR")], [], []⟩ =
      .ok "https://example.org/sdmx/data/EXR" :=
  ⟨rfl, by decide⟩

/-- Witness for C2 at the concrete structure handler `Except.ok`. -/
theorem data_query_end_to_end_instance :
    url_init Except.ok PARAM.find exampleSource Resource.data
      [("resource_id", Val.vStr "EXR")] [] =
      .ok ⟨[("data", Val.vNone), ("flow_ref", Val.vStr "EXR")], [], []⟩ :=
  (data_query_end_to_end Except.ok).1

/-! ### C4: PositiveIntParam validation -/

/-- C4 counterexample: a non-numeric value supplied for first_n_observations
makes handle fail with a TypeError (raised by the Python comparison
`result[k] <= 0`), which is not the non-positive-integer ValueError the claim
names. -/
theorem first_n_observations_non_numeric_counterexample :
    positiveIntParamHandle firstNObservationsParam [("first_n_observations", Val.vStr "x")] =
      .error Err.typeError
    ∧ Err.typeError ≠ Err.valueError "firstNObservations must be positive integer; got x" :=
  ⟨by decide, by decide⟩

/-- C4 amended: for the PositiveIntParam first_n_observations, value 5
succeeds with a non-empty fragment; values 0 and -3 fail with the
non-positive-integer ValueError; a non-numeric value fails with a TypeError
from the integer comparison rather than that ValueError; absence yields an
empty fragment. -/
theorem first_n_observations_validation :
    positiveIntParamHandle firstNObservationsParam [("first_n_observations", Val.vInt 5)] =
      .ok ([("firstNObservations", Val.vStr "firstNObservations")], [])
    ∧ positiveIntParamHandle firstNObservationsParam [("first_n_observations", Val.vInt 0)] =
      .error (.valueError "firstNObservations must be positive integer; got 0")
    ∧ positiveIntParamHandle firstNObservationsParam [("first_n_observations", Val.vInt (-3))] =
      .error (.valueError "firstNObservations must be positive integer; got -3")
    ∧ positiveIntParamHandle firstNObservationsParam [("first_n_observations", Val.vStr "x")] =
      .error Err.typeError
    ∧ positiveIntParamHandle firstNObservationsParam [] = .ok ([], []) :=
  ⟨by decide, by decide, by decide, by decide, by decide⟩

/-! ### C5: PositiveIntParam stringifies the key -/

/-- C5: evaluating the code at the failing input: a successful handle of
first_n_observations=5 returns the stringified KEY "firstNObservations" as
the fragment value, not the string form "5" of the validated integer. -/
theorem positive_int_param_stringifies_key :
    positiveIntParamHandle firstNObservationsParam [("first_n_observations", Val.vInt 5)] =
      .ok ([("firstNObservations", Val.vStr "firstNObservations")], [])
    ∧ Val.vStr "firstNObservations" ≠ Val.vStr "5" :=
  ⟨by decide, by decide⟩

/-! ### C6: unconsumed parameters fail the build -/

/-- C6: the build completes only when the remaining-parameters mapping is
empty after the active handler runs, and whenever the dispatched handler
completes leaving any key unconsumed, the build fails with the
unexpected/unhandled-parameters ValueError — for every query type (the
handler, including the abstract structure handler, is universally
quantified). -/
theorem unconsumed_parameters_fail_build
    (hs : URLState → Except Err URLState) (ap : String → Option ParamSpec)
    (source : Source) (rt : Resource) (kwargs pd : Dict) :
    (∀ st, url_init hs ap source rt kwargs pd = .ok st → st.params = [])
    ∧ (∀ st, kwargs.any (fun kv => dictContains pd kv.1) = false →
        dispatch_handler hs ap source rt ⟨[], [], dictUpdate kwargs pd⟩ = .ok st →
        st.params ≠ [] →
        url_init hs ap source rt kwargs pd =
          .error (.valueError "Unexpected/unhandled parameters")) := by
  constructor
  · intro st h
    unfold url_init at h
    split at h
    · simp at h
    · split at h
      · simp at h
      · rename_i st' heq
        split at h
        · rename_i hemp
          cases h
          exact List.isEmpty_iff.mp hemp
        · simp at h
  · intro st hov hdis hne
    unfold url_init
    rw [hov]
    simp only [Bool.false_eq_true, if_false]
    rw [hdis]
    have : st.params.isEmpty = false := by
      rcases hst : st.params with _ | ⟨a, t⟩
      · exact absurd hst hne
      · rfl
    simp [this]

/-- Witness for C6: supplying bogus_param="x" on a structure-type build (with
the identity structure handler, which consumes nothing) fails with the
unexpected/unhandled-parameters error. -/
theorem unconsumed_parameters_fail_build_instance :
    url_init Except.ok PARAM.find exampleSource Resource.codelist
      [("bogus_param", Val.vStr "x")] [] =
      .error (.valueError "Unexpected/unhandled parameters") :=
  (unconsumed_parameters_fail_build Except.ok PARAM.find exampleSource Resource.codelist
      [("bogus_param", Val.vStr "x")] []).2
    ⟨[], [], [("bogus_param", Val.vStr "x")]⟩ (by decide) (by decide) (by decide)

/-! ### C3: QueryParameter alias handling -/

/-- C3: camelName turns start_period into startPeriod; QueryParameter.handle
fails with the conflicting-alias ValueError when both distinct aliases are
supplied, returns an empty fragment when neither is supplied (no
default-value substitution), and when exactly one alias is supplied with an
allowed value returns the one-entry fragment keyed by camelName. -/
theorem query_parameter_alias_handling (p : ParamSpec) (params : Dict) :
    camelName "start_period" = "startPeriod"
    ∧ (dictContains params p.name = true →
        dictContains params (camelName p.name) = true →
        p.name ≠ camelName p.name →
        queryParamHandle p params =
          .error (.valueError ("Cannot give both " ++ p.name ++ " and " ++ camelName p.name)))
    ∧ (dictContains params p.name = false →
        dictContains params (camelName p.name) = false →
        queryParamHandle p params = .ok ([], params))
    ∧ (∀ v, dictLookup params p.name = some v →
        (camelName p.name = p.name ∨ dictContains params (camelName p.name) = false) →
        (v ∈ p.values ∨ p.values = []) →
        queryParamHandle p params = .ok ([(camelName p.name, v)], dictRemove params p.name))
    ∧ (∀ v, dictContains params p.name = false →
        dictLookup params (camelName p.name) = some v →
        (v ∈ p.values ∨ p.values = []) →
        queryParamHandle p params =
          .ok ([(camelName p.name, v)], dictRemove params (camelName p.name))) := by
  refine ⟨by decide, ?_, ?_, ?_, ?_⟩
  · intro h1 h2 h3
    have hbne : (p.name != camelName p.name) = true := by
      simp [bne_iff_ne, h3]
    simp [queryParamHandle, h1, h2, hbne]
  · intro h1 h2
    simp [queryParamHandle, h1, h2]
  · intro v hv hcn hallow
    have h1 : dictContains params p.name = true := by
      simp [dictContains, hv]
    have hok : (decide (v ∈ p.values) || p.values.isEmpty) = true := by
      rcases hallow with h | h
      · simp [h]
      · simp [h]
    rcases hcn with hcn | hcn
    · have h2 : dictContains params (camelName p.name) = true := by rw [hcn]; exact h1
      have hbne : (p.name != camelName p.name) = false := by
        simp [bne_iff_ne, hcn]
      simp [queryParamHandle, h1, h2, hbne, hv, hok]
    · simp [queryParamHandle, h1, hcn, hv, hok]
  · intro v h1 hv hallow
    have h2 : dictContains params (camelName p.name) = true := by
      simp [dictContains, hv]
    have hok : (decide (v ∈ p.values) || p.values.isEmpty) = true := by
      rcases hallow with h | h
      · simp [h]
      · simp [h]
    simp [queryParamHandle, h1, h2, hv, hok]

/-- Witness for C3 at the registered start_period parameter: supplying both
aliases fails, supplying exactly one yields the key startPeriod. -/
theorem query_parameter_alias_handling_instance :
    queryParamHandle startPeriodParam
      [("start_period", Val.vStr "2020"), ("startPeriod", Val.vStr "2021")] =
      .error (.valueError "Cannot give both start_period and startPeriod")
    ∧ queryParamHandle startPeriodParam [("startPeriod", Val.vStr "2021")] =
      .ok ([("startPeriod", Val.vStr "2021")], []) :=
  ⟨(query_parameter_alias_handling startPeriodParam
      [("start_period", Val.vStr "2020"), ("startPeriod", Val.vStr "2021")]).2.1
      (by decide) (by decide) (by decide),
   (query_parameter_alias_handling startPeriodParam
      [("startPeriod", Val.vStr "2021")]).2.2.2.2 (Val.vStr "2021")
      (by decide) (by decide) (Or.inr rfl)⟩

/-! ### C9: handle touches only its own keys -/

/-- The keys a parameter may remove from the remaining-parameters mapping:
its name, plus the camelCase alias for query-string parameters. -/
def ownKeys (p : ParamSpec) : List String :=
  match p.kind with
  | .path => [p.name]
  | .agency => [p.name]
  | .query => [p.name, camelName p.name]
  | .posInt => [p.name, camelName p.name]

theorem queryParamHandle_frame (p : ParamSpec) (params frag params' : Dict) (k : String)
    (h : queryParamHandle p params = .ok (frag, params'))
    (h1 : k ≠ p.name) (h2 : k ≠ camelName p.name) :
    dictLookup params' k = dictLookup params k := by
  unfold queryParamHandle at h
  split at h
  · split at h
    · simp at h
    · split at h
      · split at h
        · injection h with h3
          injection h3 with hf hp
          subst hp
          split
          · exact dictLookup_remove_ne params p.name k h1
          · exact dictLookup_remove_ne params (camelName p.name) k h2
        · simp at h
      · simp at h
  · injection h with h3
    injection h3 with hf hp
    subst hp
    rfl

theorem pathParamHandle_frame (p : ParamSpec) (params frag params' : Dict) (k : String)
    (h : pathParamHandle p params = .ok (frag, params'))
    (h1 : k ≠ p.name) :
    dictLookup params' k = dictLookup params k := by
  unfold pathParamHandle at h
  split at h
  · injection h with h3
    injection h3 with hf hp
    subst hp
    exact dictLookup_remove_ne params p.name k h1
  · simp at h

theorem agencyParamHandle_frame (p : ParamSpec) (params frag params' : Dict)
    (source : Source) (k : String)
    (h : agencyParamHandle p params source = .ok (frag, params'))
    (h1 : k ≠ p.name) :
    dictLookup params' k = dictLookup params k := by
  unfold agencyParamHandle at h
  rw [pathParamHandle_frame p _ frag params' k h h1]
  exact dictLookup_setdefault_ne params p.name _ k h1

theorem positiveIntParamHandle_frame (p : ParamSpec) (params frag params' : Dict) (k : String)
    (h : positiveIntParamHandle p params = .ok (frag, params'))
    (h1 : k ≠ p.name) (h2 : k ≠ camelName p.name) :
    dictLookup params' k = dictLookup params k := by
  unfold positiveIntParamHandle at h
  split at h
  · simp at h
  · rename_i params0 heq
    injection h with h3
    injection h3 with hf hp
    subst hp
    exact queryParamHandle_frame p params _ _ k heq h1 h2
  · rename_i kk vv rest params0 heq
    split at h
    · simp at h
    · simp at h
    · injection h with h3
      injection h3 with hf hp
      subst hp
      exact queryParamHandle_frame p params _ _ k heq h1 h2

/-- C9: every Parameter handle call that succeeds removes at most its own
keys from the remaining-parameters mapping — the parameter's name, or for
query parameters the name or its camelCase alias — and leaves the binding of
every other key unchanged. -/
theorem handle_frame_property (p : ParamSpec) (params : Dict) (source : Source)
    (frag params' : Dict) (k : String)
    (h : ParamSpec.handle p params source = .ok (frag, params'))
    (hk : k ∉ ownKeys p) :
    dictLookup params' k = dictLookup params k := by
  unfold ParamSpec.handle at h
  unfold ownKeys at hk
  cases hkind : p.kind with
  | path =>
    rw [hkind] at h hk
    replace h : pathParamHandle p params = .ok (frag, params') := h
    replace hk : k ∉ [p.name] := hk
    simp only [List.mem_singleton] at hk
    exact pathParamHandle_frame p params frag params' k h hk
  | agency =>
    rw [hkind] at h hk
    replace h : agencyParamHandle p params source = .ok (frag, params') := h
    replace hk : k ∉ [p.name] := hk
    simp only [List.mem_singleton] at hk
    exact agencyParamHandle_frame p params frag params' source k h hk
  | query =>
    rw [hkind] at h hk
    replace h : queryParamHandle p params = .ok (frag, params') := h
    replace hk : k ∉ [p.name, camelName p.name] := hk
    simp only [List.mem_cons, List.mem_singleton, not_or] at hk
    exact queryParamHandle_frame p params frag params' k h hk.1 hk.2.1
  | posInt =>
    rw [hkind] at h hk
    replace h : positiveIntParamHandle p params = .ok (frag, params') := h
    replace hk : k ∉ [p.name, camelName p.name] := hk
    simp only [List.mem_cons, List.mem_singleton, not_or] at hk
    exact positiveIntParamHandle_frame p params frag params' k h hk.1 hk.2.1

/-- Witness for C9: handling start_period leaves the binding of an unrelated
key untouched. -/
theorem handle_frame_property_instance :
    dictLookup [("a", Val.vStr "1")] "a" =
      dictLookup [("a", Val.vStr "1"), ("start_period", Val.vStr "2020")] "a" :=
  handle_frame_property startPeriodParam
    [("a", Val.vStr "1"), ("start_period", Val.vStr "2020")] exampleSource
    [("startPeriod", Val.vStr "2020")] [("a", Val.vStr "1")] "a" (by decide) (by decide)

/-! ### C10: names without an underscore-lowercase pair -/

theorem camelChars_of_noUnderscoreLower (l : List Char) (h : noUnderscoreLower l = true) :
    camelChars l = l := by
  induction l using camelChars.induct with
  | case1 => rfl
  | case2 c => rfl
  | case3 c1 c2 rest hcond ih =>
    rw [noUnderscoreLower] at h
    rw [Bool.and_eq_true, Bool.not_eq_true'] at h
    exact absurd hcond (by simp [h.1])
  | case4 c1 c2 rest hcond ih =>
    rw [noUnderscoreLower] at h
    rw [Bool.and_eq_true] at h
    rw [camelChars, if_neg (by simp [hcond])]
    rw [ih h.2]

/-- C10: for a QueryParameter whose name has no underscore followed by an
ASCII lowercase letter, the derived camelName equals the name itself, so at
most one of the two alias keys can ever be found and handle can never raise
the conflicting-alias ValueError (the only ValueError in
QueryParameter.handle). -/
theorem no_underscore_camel_identity (p : ParamSpec)
    (h : noUnderscoreLower p.name.data = true) :
    camelName p.name = p.name
    ∧ ∀ (params : Dict) (msg : String),
        queryParamHandle p params ≠ .error (.valueError msg) := by
  have hcn : camelName p.name = p.name := by
    show (⟨camelChars p.name.data⟩ : String) = p.name
    rw [camelChars_of_noUnderscoreLower p.name.data h]
  refine ⟨hcn, fun params msg hcontra => ?_⟩
  unfold queryParamHandle at hcontra
  rw [hcn] at hcontra
  rw [bne_self_eq_false] at hcontra
  simp only [Bool.false_and] at hcontra
  split at hcontra
  · rw [if_neg (by simp)] at hcontra
    split at hcontra
    · split at hcontra
      · exact Except.noConfusion hcontra
      · exact Err.noConfusion (Except.error.inj hcontra)
    · exact Err.noConfusion (Except.error.inj hcontra)
  · exact Except.noConfusion hcontra

/-- Witness for C10 at the registered parameter named mode. -/
theorem no_underscore_camel_identity_instance :
    camelName "mode" = "mode"
    ∧ queryParamHandle modeParam [("mode", Val.vStr "available")] ≠
        .error (.valueError "Cannot give both mode and mode") :=
  ⟨(no_underscore_camel_identity modeParam (by decide)).1,
   (no_underscore_camel_identity modeParam (by decide)).2
     [("mode", Val.vStr "available")] "Cannot give both mode and mode"⟩
